import Mathlib

set_option maxRecDepth 100000

/-!
Verification development for the dexios V5 header codec, keyslot manager and
KDF plumbing (`dexios-core`).  Bytes are modelled as `List Nat`
(each entry a byte value); machine-level overflow plays no role in the
modelled code paths.  Fallible Rust code returning `anyhow::Result` is
modelled with `Except String`, carrying the literal error messages of the
source; a Rust panic (an `unwrap` or an out-of-bounds index) is modelled as
`Option.none`.
-/

namespace Dexios

/-- Algorithm enum (declared in `primitives.rs`, referenced throughout
`header.rs`). Modelled from the spec: `primitives.rs` is not under `src/`;
§3/§4.3 list exactly these two algorithms. -/
inductive Algorithm
  | XChaCha20Poly1305
  | Aes256GcmSiv
deriving DecidableEq

/-- Mode enum (declared in `primitives.rs`). Modelled from the spec:
`primitives.rs` is not under `src/`; §3 lists Stream and Memory modes. -/
inductive Mode
  | StreamMode
  | MemoryMode
deriving DecidableEq

/-- `HeaderVersion` from `header.rs`: only V5 exists. -/
inductive HeaderVersion
  | V5
deriving DecidableEq

/-- `HashingAlgorithm` from `header.rs`. -/
inductive HashingAlgorithm
  | Blake3Balloon (v : Nat)
deriving DecidableEq

/-- Modelled from the spec: `get_nonce_len` lives in `primitives.rs`, which is
not under `src/`.  Spec §6: XChaCha20Poly1305 uses a 24-byte nonce in memory
mode and 20 bytes in stream mode; Aes256GcmSiv uses 12 and 8 bytes. -/
def get_nonce_len : Algorithm → Mode → Nat
  | Algorithm.XChaCha20Poly1305, Mode.MemoryMode => 24
  | Algorithm.XChaCha20Poly1305, Mode.StreamMode => 20
  | Algorithm.Aes256GcmSiv, Mode.MemoryMode => 12
  | Algorithm.Aes256GcmSiv, Mode.StreamMode => 8

/-- Modelled from the spec: `SALT_LEN` is declared in `primitives.rs`
(not under `src/`); §6 fixes the salt length at 16 bytes. -/
def SALT_LEN : Nat := 16

/-- Modelled from the spec: `ENCRYPTED_MASTER_KEY_LEN` is declared in
`primitives.rs` (not under `src/`); §6 fixes it at 48 bytes. -/
def ENCRYPTED_MASTER_KEY_LEN : Nat := 48

/-- Modelled from the spec: `MASTER_KEY_LEN` is declared in `primitives.rs`
(not under `src/`); §6 fixes it at 32 bytes. -/
def MASTER_KEY_LEN : Nat := 32

/-- `Keyslot` struct from `header.rs`.  The fixed-size Rust arrays
(`[u8; 48]`, `[u8; SALT_LEN]`) are modelled as lists; length facts are
carried as hypotheses where a statement needs them. -/
structure Keyslot where
  hash_algorithm : HashingAlgorithm
  encrypted_key : List Nat
  nonce : List Nat
  salt : List Nat
deriving DecidableEq

/-- `HeaderType` struct from `header.rs`. -/
structure HeaderType where
  version : HeaderVersion
  algorithm : Algorithm
  mode : Mode
deriving DecidableEq

/-- `Header` struct from `header.rs`. -/
structure Header where
  header_type : HeaderType
  nonce : List Nat
  salt : Option (List Nat)
  keyslots : Option (List Keyslot)
deriving DecidableEq

/-- `Keyslot::serialize` from `header.rs`: the two identifier bytes. -/
def Keyslot.serialize (k : Keyslot) : List Nat :=
  match k.hash_algorithm with
  | HashingAlgorithm.Blake3Balloon i => if i = 5 then [0xDF, 0xB5] else [0x00, 0x00]

/-- `Header::serialize_version` from `header.rs`. -/
def Header.serialize_version (h : Header) : List Nat :=
  match h.header_type.version with
  | HeaderVersion.V5 => [0xDE, 0x05]

/-- `Header::serialize_algorithm` from `header.rs`. -/
def Header.serialize_algorithm (h : Header) : List Nat :=
  match h.header_type.algorithm with
  | Algorithm.XChaCha20Poly1305 => [0x0E, 0x01]
  | Algorithm.Aes256GcmSiv => [0x0E, 0x02]

/-- `Header::serialize_mode` from `header.rs`. -/
def Header.serialize_mode (h : Header) : List Nat :=
  match h.header_type.mode with
  | Mode.StreamMode => [0x0C, 0x01]
  | Mode.MemoryMode => [0x0C, 0x02]

/-- The bytes one keyslot contributes inside the `for keyslot in &keyslots`
loop of `Header::serialize_v5`: identifier, encrypted key, nonce, padding to
24, salt, 6 spare bytes. -/
def Keyslot.serializeBytes (keyslot_nonce_len : Nat) (k : Keyslot) : List Nat :=
  k.serialize ++ k.encrypted_key ++ k.nonce
    ++ List.replicate (24 - keyslot_nonce_len) 0 ++ k.salt ++ List.replicate 6 0

/-- `Header::serialize_v5` from `header.rs`.  The source unwraps
`self.keyslots` (a panic when the field is `None`), modelled as `none`.
The `HeaderTag` produced by `get_tag` is folded into direct calls of the
three tag serializers. -/
def Header.serialize_v5 (h : Header) : Option (List Nat) :=
  match h.keyslots with
  | none => none
  | some keyslots =>
    let padding :=
      List.replicate (26 - get_nonce_len h.header_type.algorithm h.header_type.mode) 0
    let keyslot_nonce_len := get_nonce_len h.header_type.algorithm Mode.MemoryMode
    some (h.serialize_version ++ h.serialize_algorithm ++ h.serialize_mode
      ++ h.nonce ++ padding
      ++ (keyslots.map (Keyslot.serializeBytes keyslot_nonce_len)).flatten
      ++ List.replicate ((4 - keyslots.length) * 96) 0)

/-- `Header::serialize` from `header.rs` (V5 is the only version). -/
def Header.serialize (h : Header) : Option (List Nat) :=
  match h.header_type.version with
  | HeaderVersion.V5 => h.serialize_v5

/-- `Header::get_size` from `header.rs`. -/
def Header.get_size (h : Header) : Nat :=
  match h.header_type.version with
  | HeaderVersion.V5 => 416

/-- `Header::create_aad` from `header.rs`: version, algorithm and mode tags,
payload nonce, zero padding to offset 32. -/
def Header.create_aad (h : Header) : Except String (List Nat) :=
  match h.header_type.version with
  | HeaderVersion.V5 =>
    Except.ok (h.serialize_version ++ h.serialize_algorithm ++ h.serialize_mode
      ++ h.nonce
      ++ List.replicate (26 - get_nonce_len h.header_type.algorithm h.header_type.mode) 0)

/-- The static 32-byte prefix shared by `serialize_v5` and `create_aad`:
version, algorithm and mode tags, payload nonce, zero padding to offset 32. -/
def aadPrefix (h : Header) : List Nat :=
  h.serialize_version ++ h.serialize_algorithm ++ h.serialize_mode ++ h.nonce
    ++ List.replicate (26 - get_nonce_len h.header_type.algorithm h.header_type.mode) 0

/-- Model of `Read::read_exact` on an in-memory cursor: take `n` bytes,
return them with the remaining suffix; fail when fewer than `n` bytes are
available. -/
def readExact (n : Nat) (bs : List Nat) : Option (List Nat × List Nat) :=
  if n ≤ bs.length then some (bs.take n, bs.drop n) else none

/-- Lift a cursor read into the error monad with the message the source
attaches via `.context(...)`. -/
def orErr (msg : String) : Option α → Except String α
  | none => Except.error msg
  | some a => Except.ok a

/-- The `for _ in 0..4` keyslot loop of `Header::deserialize`.  Faithful to
the source: when the identifier's first byte is not `0xDF` the loop just
`continue`s — it does NOT advance the cursor over the remaining 94 bytes of
the slot. -/
def readKeyslotsLoop (keyslot_nonce_len : Nat) :
    Nat → List Nat → Except String (List Keyslot × List Nat)
  | 0, cursor => Except.ok ([], cursor)
  | n + 1, cursor => do
    let (identifier, cursor) ←
      orErr "Unable to read keyslot identifier from header" (readExact 2 cursor)
    if identifier.take 1 ≠ [0xDF] then
      readKeyslotsLoop keyslot_nonce_len n cursor
    else do
      let (encrypted_key, cursor) ←
        orErr "Unable to read keyslot encrypted bytes from header" (readExact 48 cursor)
      let (nonce, cursor) ←
        orErr "Unable to read keyslot nonce from header" (readExact keyslot_nonce_len cursor)
      let (_, cursor) ←
        orErr "Unable to read keyslot padding from header"
          (readExact (24 - keyslot_nonce_len) cursor)
      let (salt, cursor) ←
        orErr "Unable to read keyslot salt from header" (readExact 16 cursor)
      let (_, cursor) ←
        orErr "Unable to read keyslot padding from header" (readExact 6 cursor)
      let hash_algorithm ←
        match identifier with
        | [0xDF, 0xB5] => Except.ok (HashingAlgorithm.Blake3Balloon 5)
        | _ => Except.error "Key hashing algorithm not identified"
      let (rest, cursor) ← readKeyslotsLoop keyslot_nonce_len n cursor
      Except.ok (⟨hash_algorithm, encrypted_key, nonce, salt⟩ :: rest, cursor)

/-- `Header::deserialize` from `header.rs`.  Reads the 2 version bytes, seeks
back, reads the full 416-byte envelope, then walks an inner cursor: tags,
payload nonce, padding to 32, the four keyslot positions; the AAD is the
first 32 bytes of the raw envelope. -/
def Header.deserialize (bytes : List Nat) : Except String (Header × List Nat) := do
  let (version_bytes, _) ←
    orErr "Unable to read version from the header" (readExact 2 bytes)
  let version ←
    match version_bytes with
    | [0xDE, 0x05] => Except.ok HeaderVersion.V5
    | _ => Except.error "Error getting version from header"
  let header_length :=
    match version with
    | HeaderVersion.V5 => 416
  let (full_header_bytes, _) ←
    orErr "Unable to read full bytes of the header" (readExact header_length bytes)
  let cursor := full_header_bytes.drop 2
  let (algorithm_bytes, cursor) ←
    orErr "Unable to read algorithm's bytes from header" (readExact 2 cursor)
  let algorithm ←
    match algorithm_bytes with
    | [0x0E, 0x01] => Except.ok Algorithm.XChaCha20Poly1305
    | [0x0E, 0x02] => Except.ok Algorithm.Aes256GcmSiv
    | _ => Except.error "Error getting encryption mode from header"
  let (mode_bytes, cursor) ←
    orErr "Unable to read encryption mode's bytes from header" (readExact 2 cursor)
  let mode ←
    match mode_bytes with
    | [0x0C, 0x01] => Except.ok Mode.StreamMode
    | [0x0C, 0x02] => Except.ok Mode.MemoryMode
    | _ => Except.error "Error getting cipher mode from header"
  let nonce_len := get_nonce_len algorithm mode
  let salt := List.replicate 16 0
  let (nonce, cursor) ←
    orErr "Unable to read nonce from header" (readExact nonce_len cursor)
  let (_, cursor) ←
    orErr "Unable to read padding from header" (readExact (26 - nonce_len) cursor)
  let keyslot_nonce_len := get_nonce_len algorithm Mode.MemoryMode
  let (keyslots, _) ← readKeyslotsLoop keyslot_nonce_len 4 cursor
  let aad := full_header_bytes.take 32
  Except.ok
    ({ header_type := ⟨version, algorithm, mode⟩
       nonce := nonce
       salt := some salt
       keyslots := some keyslots }, aad)

/-- `Protected<T>` from `blake3-balloon/src/protected.rs` (the same wrapper
shape is used by `dexios-core`): a plain wrapper around the inner data.
Zeroisation on drop is a memory property outside a pure shallow embedding;
the reachability structure of the API is what is embedded here. -/
structure Protected (T : Type) where
  data : T
deriving DecidableEq

/-- `Protected::new` from `protected.rs`. -/
def Protected.new (value : T) : Protected T := ⟨value⟩

/-- `Protected::expose` from `protected.rs`: the explicit accessor. -/
def Protected.expose (p : Protected T) : T := p.data

/-- `Protected::into_inner` from `protected.rs`. -/
def Protected.into_inner (p : Protected T) : T := p.data

/-- The body of `impl Deref for Protected` in `protected.rs`
(lines 42-51): `fn deref(&self) -> &Self::Target { &self.data }`. -/
def Protected.deref (p : Protected T) : T := p.data

/-- Parameters handed to the external `balloon_hash` crate's
`Params::new(s_cost, t_cost, p_cost)`. -/
structure BalloonParams where
  s_cost : Nat
  t_cost : Nat
  p_cost : Nat
deriving DecidableEq

/-- Behaviour of the external collaborators the core calls into.  The
`balloon_hash`/`blake3` crates are third-party dependencies and
`Ciphers` lives in `cipher.rs`, which is not under `src/`; modelled from the
spec (§4.2, §4.3) as abstract functions the whole development is
parameterised over: `paramsNew` may reject a parameter triple (spec error
`KdfInit`), `balloonHash` maps (params, password, salt) to an output or
fails, `cipherInit` says whether `Ciphers::initialize` succeeds for a key
and algorithm, and `cipherDecrypt` maps (key, algorithm, nonce, ciphertext)
to a plaintext or fails (spec error `CipherAuth`). -/
structure Exts where
  paramsNew : Nat → Nat → Nat → Option BalloonParams
  balloonHash : BalloonParams → List Nat → List Nat → Option (List Nat)
  cipherInit : List Nat → Algorithm → Bool
  cipherDecrypt : List Nat → Algorithm → List Nat → List Nat → Option (List Nat)

/-- `balloon_hash` from `key.rs`: build the V5 parameters
`Params::new(278_528, 1, 1)`, run the balloon construction over the exposed
secret and the salt, and wrap the 32-byte output. -/
def balloon_hash (E : Exts) (raw_key : Protected (List Nat)) (salt : List Nat)
    (version : HeaderVersion) : Except String (Protected (List Nat)) :=
  match version with
  | HeaderVersion.V5 =>
    match E.paramsNew 278528 1 1 with
    | none => Except.error "Error initialising balloon hashing parameters"
    | some params =>
      match E.balloonHash params raw_key.expose salt with
      | none => Except.error "Error while hashing your key"
      | some key => Except.ok (Protected.new key)

/-- `HashingAlgorithm::hash` from `header.rs` (lines 114-130): version byte 5
dispatches to `balloon_hash` with `HeaderVersion::V5`; every other version
byte is rejected. -/
def HashingAlgorithm.hash (E : Exts) (a : HashingAlgorithm)
    (raw_key : Protected (List Nat)) (salt : List Nat) :
    Except String (Protected (List Nat)) :=
  match a with
  | HashingAlgorithm.Blake3Balloon i =>
    if i = 5 then balloon_hash E raw_key salt HeaderVersion.V5
    else Except.error "Balloon hashing is not supported with the parameters provided."

/-- `vec_to_arr` from `key.rs`: copy `min N len` bytes into a zeroed
`N`-byte array. -/
def vec_to_arr (N : Nat) (master_key_vec : List Nat) : List Nat :=
  master_key_vec.take N ++ List.replicate (N - master_key_vec.length) 0

/-- The closure passed to `find_map` inside `decrypt_master_key`
(`key.rs` lines 85-94): derive the slot key from the supplied secret and the
slot's salt, initialise the cipher, and try to unwrap the slot's encrypted
key; any failure makes the slot a non-match. -/
def keyslotProbe (E : Exts) (alg : Algorithm) (raw_key : Protected (List Nat))
    (keyslot : Keyslot) : Option (Protected (List Nat)) :=
  match HashingAlgorithm.hash E keyslot.hash_algorithm raw_key keyslot.salt with
  | Except.error _ => none
  | Except.ok key =>
    if E.cipherInit key.data alg then
      (E.cipherDecrypt key.data alg keyslot.nonce keyslot.encrypted_key).map
        (fun v => Protected.new (vec_to_arr 32 v))
    else none

/-- `decrypt_master_key` from `key.rs` (lines 73-98): iterate the stored
keyslots with `find_map`, returning the first successfully unwrapped master
key, or the no-match error when every slot fails. -/
def decrypt_master_key (E : Exts) (raw_key : Protected (List Nat))
    (header : Header) : Except String (Protected (List Nat)) :=
  match header.header_type.version with
  | HeaderVersion.V5 =>
    match header.keyslots with
    | none => Except.error "Unable to find a keyslot!"
    | some slots =>
      match slots.findSome? (keyslotProbe E header.header_type.algorithm raw_key) with
      | some k => Except.ok k
      | none =>
        Except.error
          "Unable to find a match with the key you provided (maybe you supplied the wrong key?)"

/-- `Blake3BalloonError` from `blake3-balloon/src/error.rs`.  The message
payloads that Rust formats from foreign errors are not semantically relevant
and are carried as plain strings. -/
inductive Blake3BalloonError
  | ParameterInit (msg : String)
  | HashingFailed (msg : String)
  | UnsupportedVersion (version : Nat) (supported : List Nat)
  | InvalidSaltLength (expected actual : Nat)
  | EmptyPassword
  | BalloonHashError
deriving DecidableEq

/-- `ParameterVersion` from `blake3-balloon/src/params.rs`. -/
inductive ParameterVersion
  | V4
  | V5
deriving DecidableEq

/-- `ParameterVersion::balloon_params` from `params.rs`: V4 builds
`Params::new(262_144, 1, 1)`, V5 builds `Params::new(278_528, 1, 1)`. -/
def ParameterVersion.balloon_params (E : Exts) :
    ParameterVersion → Except Blake3BalloonError BalloonParams
  | ParameterVersion.V4 =>
    match E.paramsNew 262144 1 1 with
    | none => Except.error (Blake3BalloonError.ParameterInit "")
    | some p => Except.ok p
  | ParameterVersion.V5 =>
    match E.paramsNew 278528 1 1 with
    | none => Except.error (Blake3BalloonError.ParameterInit "")
    | some p => Except.ok p

/-- `Blake3BalloonHasher::hash_password` from `blake3-balloon/src/hasher.rs`
(lines 131-145): an empty password is rejected before any hashing; otherwise
the versioned parameters are built and the balloon construction is run.  The
hasher struct is represented by its `config.version`. -/
def Blake3BalloonHasher.hash_password (E : Exts) (version : ParameterVersion)
    (password : List Nat) (salt : List Nat) :
    Except Blake3BalloonError (List Nat) :=
  if password.isEmpty then Except.error Blake3BalloonError.EmptyPassword
  else
    match ParameterVersion.balloon_params E version with
    | Except.error e => Except.error e
    | Except.ok params =>
      match E.balloonHash params password salt with
      | none => Except.error (Blake3BalloonError.HashingFailed "")
      | some out => Except.ok out

/-- The body of the `for i in 0..*total_words` loop of `generate_passphrase`
(`key.rs` lines 125-132), with the remaining iteration count as fuel and the
current index recomputed as `total - fuel`.  `rng i` is the value the `i`-th
`StdRng::from_entropy().gen_range(0..=words.len())` call returns; the
out-of-bounds panic of `words[index]` is modelled as `none`. -/
def passphrase_loop (words : List String) (rng : Nat → Nat) (total : Nat) :
    Nat → String → Option String
  | 0, acc => some acc
  | n + 1, acc =>
    let i := total - (n + 1)
    match words.get? (rng i) with
    | none => none
    | some word =>
      let acc := acc ++ word
      let acc := if i < total - 1 then acc ++ "-" else acc
      passphrase_loop words rng total n acc

/-- `generate_passphrase` from `key.rs` (lines 118-135).  The embedded
wordlist file `wordlist.lst` is not under `src/`, so the word list is a
parameter, as is the entropy source. -/
def generate_passphrase (words : List String) (rng : Nat → Nat)
    (total_words : Nat) : Option (Protected String) :=
  (passphrase_loop words rng total_words total_words "").map Protected.new

/-- Length well-formedness of a keyslot: the fixed-size Rust arrays have
their declared sizes and the slot nonce has the memory-mode nonce length of
the chosen algorithm. -/
abbrev Keyslot.lens_ok (alg : Algorithm) (k : Keyslot) : Prop :=
  k.encrypted_key.length = 48 ∧
  k.nonce.length = get_nonce_len alg Mode.MemoryMode ∧
  k.salt.length = 16

/-- Length well-formedness of a header: keyslots present, at most four of
them, the payload nonce has the (algorithm, mode) nonce length, and every
slot is length-well-formed. -/
abbrev Header.lens_ok (h : Header) (ks : List Keyslot) : Prop :=
  h.keyslots = some ks ∧ ks.length ≤ 4 ∧
  h.nonce.length = get_nonce_len h.header_type.algorithm h.header_type.mode ∧
  ∀ k ∈ ks, Keyslot.lens_ok h.header_type.algorithm k

/-- Full well-formedness: lengths are right and every populated slot uses
the only on-wire hashing algorithm, `Blake3Balloon(5)`. -/
abbrev Header.wf (h : Header) (ks : List Keyslot) : Prop :=
  Header.lens_ok h ks ∧
  ∀ k ∈ ks, k.hash_algorithm = HashingAlgorithm.Blake3Balloon 5

/-- Helper: the successful result of an `Except`, when any. -/
def exceptOk? : Except ε α → Option α
  | Except.ok a => some a
  | Except.error _ => none

instance exceptDecEq (ε α : Type) [DecidableEq ε] [DecidableEq α] :
    DecidableEq (Except ε α) := fun x y =>
  match x, y with
  | Except.ok a, Except.ok b =>
    if h : a = b then isTrue (by rw [h])
    else isFalse (fun hc => h (Except.ok.inj hc))
  | Except.error a, Except.error b =>
    if h : a = b then isTrue (by rw [h])
    else isFalse (fun hc => h (Except.error.inj hc))
  | Except.ok _, Except.error _ => isFalse (fun hc => Except.noConfusion hc)
  | Except.error _, Except.ok _ => isFalse (fun hc => Except.noConfusion hc)

/-- A concrete, fully populated well-formed keyslot used to evaluate the
codec on explicit data. -/
def demoKeyslot : Keyslot :=
  { hash_algorithm := HashingAlgorithm.Blake3Balloon 5
    encrypted_key := List.replicate 48 9
    nonce := List.replicate 24 8
    salt := List.replicate 16 7 }

/-- A concrete well-formed header (XChaCha20Poly1305, memory mode) carrying
`demoKeyslot`. -/
def demoHeader : Header :=
  { header_type := ⟨HeaderVersion.V5, Algorithm.XChaCha20Poly1305, Mode.MemoryMode⟩
    nonce := List.replicate 24 1
    salt := none
    keyslots := some [demoKeyslot] }

/-- The canonical 416-byte serialization of `demoHeader`. -/
def demoHeaderBytes : List Nat :=
  [0xDE, 0x05, 0x0E, 0x01, 0x0C, 0x02] ++ List.replicate 24 1 ++ List.replicate 2 0
    ++ ([0xDF, 0xB5] ++ List.replicate 48 9 ++ List.replicate 24 8
        ++ List.replicate 16 7 ++ List.replicate 6 0)
    ++ List.replicate 288 0

/-- A valid 416-byte V5 envelope (XChaCha20Poly1305, memory mode, zero
payload nonce, zero padding) whose slot position 0 is empty (96 zero bytes)
and whose slot position 1 is populated with identifier `DF B5` and all-zero
key material.  Every field obeys the wire format of spec §4.5. -/
def nonCanonicalEnvelope : List Nat :=
  [0xDE, 0x05, 0x0E, 0x01, 0x0C, 0x02] ++ List.replicate 26 0
    ++ List.replicate 96 0
    ++ ([0xDF, 0xB5] ++ List.replicate 94 0)
    ++ List.replicate 192 0

/-- A valid 416-byte V5 envelope with slot position 0 empty and slot
position 1 populated with distinctive key material (encrypted key bytes 1,
nonce bytes 2, salt bytes 3). -/
def slotSkipEnvelope : List Nat :=
  [0xDE, 0x05, 0x0E, 0x01, 0x0C, 0x02] ++ List.replicate 26 0
    ++ List.replicate 96 0
    ++ ([0xDF, 0xB5] ++ List.replicate 48 1 ++ List.replicate 24 2
        ++ List.replicate 16 3 ++ List.replicate 6 0)
    ++ List.replicate 192 0

/-- A 416-byte V5 envelope whose four slot identifier positions (offsets 32,
128, 224, 320) all start with a byte other than `0xDF` (1, 0, 0, 0), i.e. a
zero-populated-slots header in the claim's sense, but whose slot 0 carries
the junk bytes `DF 07` at offsets 34-35 inside the region the spec says
must be ignored. -/
def emptySlotsJunkEnvelope : List Nat :=
  [0xDE, 0x05, 0x0E, 0x01, 0x0C, 0x02] ++ List.replicate 26 0
    ++ ([1, 0, 0xDF, 7] ++ List.replicate 92 0)
    ++ List.replicate 288 0

/-- A header whose payload nonce is empty even though XChaCha20Poly1305 in
stream mode prescribes a 20-byte nonce; its keyslots field is present and
holds zero slots. -/
def shortNonceHeader : Header :=
  { header_type := ⟨HeaderVersion.V5, Algorithm.XChaCha20Poly1305, Mode.StreamMode⟩
    nonce := []
    salt := none
    keyslots := some [] }

/-- A header whose payload nonce is empty even though XChaCha20Poly1305 in
memory mode prescribes a 24-byte nonce; keyslots present, zero slots. -/
def shortNonceHeaderMem : Header :=
  { header_type := ⟨HeaderVersion.V5, Algorithm.XChaCha20Poly1305, Mode.MemoryMode⟩
    nonce := []
    salt := none
    keyslots := some [] }

/-- The 392 bytes `serialize` actually produces for `shortNonceHeaderMem`:
6 tag bytes, no nonce, 2 padding bytes, 384 zero slot bytes. -/
def shortNonceMemBytes : List Nat :=
  [0xDE, 0x05, 0x0E, 0x01, 0x0C, 0x02] ++ List.replicate 2 0 ++ List.replicate 384 0

/-- A header with zero populated keyslots used for the no-matching-key
witness. -/
def zeroSlotHeader : Header :=
  { header_type := ⟨HeaderVersion.V5, Algorithm.Aes256GcmSiv, Mode.StreamMode⟩
    nonce := List.replicate 8 4
    salt := none
    keyslots := some [] }

/-- The canonical 416-byte serialization of `zeroSlotHeader`. -/
def zeroSlotBytes : List Nat :=
  [0xDE, 0x05, 0x0E, 0x02, 0x0C, 0x01] ++ List.replicate 8 4 ++ List.replicate 18 0
    ++ List.replicate 384 0

/-- External behaviour in which parameter construction always succeeds, the
balloon construction returns the slot salt as the derived key (so different
salts yield different slot keys), cipher initialisation always succeeds, and
unwrapping succeeds exactly for the key `[7]`-repeated — a small concrete
model used to evaluate the keyslot manager. -/
def extsDemo : Exts :=
  { paramsNew := fun s t p => some ⟨s, t, p⟩
    balloonHash := fun _ _ salt => some salt
    cipherInit := fun _ _ => true
    cipherDecrypt := fun key _ _ ct => if key = List.replicate 16 7 then some ct else none }

/-- External behaviour modelling that the third-party balloon-hash crate
accepts a password of any length, the empty password included, and returns
a 32-byte digest. -/
def extsAcceptingEmpty : Exts :=
  { paramsNew := fun s t p => some ⟨s, t, p⟩
    balloonHash := fun _ _ _ => some (List.replicate 32 0)
    cipherInit := fun _ _ => true
    cipherDecrypt := fun _ _ _ _ => none }

/-- A keyslot whose salt makes the demo KDF derive a non-matching key. -/
def demoSlotMiss : Keyslot :=
  { hash_algorithm := HashingAlgorithm.Blake3Balloon 5
    encrypted_key := List.replicate 48 5
    nonce := List.replicate 12 0
    salt := List.replicate 16 1 }

/-- A keyslot whose salt makes the demo KDF derive the matching key `[7] * 16`. -/
def demoSlotHit : Keyslot :=
  { hash_algorithm := HashingAlgorithm.Blake3Balloon 5
    encrypted_key := List.replicate 48 5
    nonce := List.replicate 12 0
    salt := List.replicate 16 7 }

/-- A header carrying a non-matching slot followed by a matching slot. -/
def twoSlotHeader : Header :=
  { header_type := ⟨HeaderVersion.V5, Algorithm.Aes256GcmSiv, Mode.MemoryMode⟩
    nonce := List.replicate 12 4
    salt := none
    keyslots := some [demoSlotMiss, demoSlotHit] }

/-- The master key the demo externals unwrap from `demoSlotHit`. -/
def demoMasterKey : Protected (List Nat) :=
  Protected.new (vec_to_arr 32 (List.replicate 48 5))

/-- The header `deserialize` recovers from `demoHeaderBytes`. -/
def demoParsedHeader : Header :=
  { header_type := ⟨HeaderVersion.V5, Algorithm.XChaCha20Poly1305, Mode.MemoryMode⟩
    nonce := List.replicate 24 1
    salt := some (List.replicate 16 0)
    keyslots := some [demoKeyslot] }

/-- The 32-byte AAD of `demoHeaderBytes`. -/
def demoAad : List Nat :=
  [0xDE, 0x05, 0x0E, 0x01, 0x0C, 0x02] ++ List.replicate 24 1 ++ List.replicate 2 0

/-- A two-word wordlist used to exhibit the out-of-bounds passphrase draw. -/
def demoWordlist : List String := ["aardvark", "abacus"]

/-- An entropy source whose every draw equals `words.len()` — the largest
value the inclusive range `0..=words.len()` sampled by the source admits. -/
def rngMax : Nat → Nat := fun _ => demoWordlist.length

theorem get_nonce_len_le_24 (a : Algorithm) (m : Mode) : get_nonce_len a m ≤ 24 := by
  cases a <;> cases m <;> decide

theorem readExact_append (n : Nat) (xs ys : List Nat) (h : xs.length = n) :
    readExact n (xs ++ ys) = some (xs, ys) := by
  subst h
  simp [readExact]

theorem readExact_all (n : Nat) (bs : List Nat) (h : bs.length = n) :
    readExact n bs = some (bs, []) := by
  have := readExact_append n bs [] h
  simpa using this

theorem readKeyslotsLoop_zeros (knl : Nat) :
    ∀ (n m : Nat), 2 * n ≤ m →
    readKeyslotsLoop knl n (List.replicate m 0) =
      Except.ok ([], List.replicate (m - 2 * n) 0) := by
  intro n
  induction n with
  | zero => intro m _; simp [readKeyslotsLoop]
  | succ n ih =>
    intro m h
    have hre : readExact 2 (List.replicate m 0) =
        some ([0, 0], List.replicate (m - 2) 0) := by
      have h2 : 2 ≤ m := by omega
      simp [readExact, List.length_replicate, h2, List.take_replicate,
        List.drop_replicate, Nat.min_eq_left h2]
    have harith : m - 2 - 2 * n = m - 2 * (n + 1) := by omega
    simp [readKeyslotsLoop, hre, orErr, bind, Except.bind,
      ih (m - 2) (by omega), harith]

theorem Keyslot.serialize_b3b5 (k : Keyslot)
    (h : k.hash_algorithm = HashingAlgorithm.Blake3Balloon 5) :
    k.serialize = [0xDF, 0xB5] := by
  simp [Keyslot.serialize, h]

theorem readExact_cons2 (a b : Nat) (R : List Nat) :
    readExact 2 (a :: b :: R) = some ([a, b], R) := by
  simp [readExact]

theorem readExact_cons6 (a b c d e f : Nat) (R : List Nat) :
    readExact 6 (a :: b :: c :: d :: e :: f :: R) = some ([a, b, c, d, e, f], R) := by
  simp [readExact]

theorem readKeyslotsLoop_ser (knl : Nat) :
    ∀ (ks : List Keyslot) (n : Nat), ks.length ≤ n →
    (∀ k ∈ ks, k.hash_algorithm = HashingAlgorithm.Blake3Balloon 5 ∧
      k.encrypted_key.length = 48 ∧ k.nonce.length = knl ∧ k.salt.length = 16) →
    readKeyslotsLoop knl n
      ((ks.map (Keyslot.serializeBytes knl)).flatten ++
        List.replicate ((n - ks.length) * 96) 0) =
      Except.ok (ks, List.replicate ((n - ks.length) * 94) 0) := by
  intro ks
  induction ks with
  | nil =>
    intro n _ _
    have harith : n * 96 - 2 * n = n * 94 := by omega
    simpa [harith] using readKeyslotsLoop_zeros knl n (n * 96) (by omega)
  | cons k ks ih =>
    intro n hlen hall
    cases n with
    | zero => simp at hlen
    | succ n =>
      obtain ⟨hk5, hek, hnn, hsl⟩ := hall k (List.mem_cons_self _ _)
      have hrest := fun k' hk' => hall k' (List.mem_cons_of_mem _ hk')
      have hser := Keyslot.serialize_b3b5 k hk5
      have hih := ih n (by simpa using hlen) hrest
      simp [readKeyslotsLoop, Keyslot.serializeBytes, hser, readExact_cons2,
        readExact_cons6, orErr, bind, Except.bind, readExact_append, hek, hnn,
        hsl, hih, hk5, Nat.succ_sub_succ, List.append_assoc]
      rw [← hk5]

theorem Keyslot.serialize_length (k : Keyslot) : k.serialize.length = 2 := by
  rcases k with ⟨⟨i⟩, ek, nn, s⟩
  by_cases h : i = 5 <;> simp [Keyslot.serialize, h]

theorem Keyslot.serializeBytes_length (alg : Algorithm) (k : Keyslot)
    (hl : Keyslot.lens_ok alg k) :
    (Keyslot.serializeBytes (get_nonce_len alg Mode.MemoryMode) k).length = 96 := by
  obtain ⟨hek, hnn, hsl⟩ := hl
  have h24 := get_nonce_len_le_24 alg Mode.MemoryMode
  simp [Keyslot.serializeBytes, Keyslot.serialize_length, hek, hnn, hsl]
  omega

theorem slotBytes_length (alg : Algorithm) :
    ∀ ks : List Keyslot, (∀ k ∈ ks, Keyslot.lens_ok alg k) →
    ((ks.map (Keyslot.serializeBytes (get_nonce_len alg Mode.MemoryMode))).flatten).length
      = 96 * ks.length := by
  intro ks
  induction ks with
  | nil => simp
  | cons k ks ih =>
    intro hall
    have hk := hall k (List.mem_cons_self _ _)
    have hrest := fun k' hk' => hall k' (List.mem_cons_of_mem _ hk')
    simp [Keyslot.serializeBytes_length alg k hk, ih hrest]
    omega

/-- Parsing a canonically serialized well-formed header succeeds and recovers
the header (the parsed salt field is the 16 zero bytes `deserialize` always
reports), together with the first 32 bytes as AAD. -/
theorem deserialize_serialize (h : Header) (ks : List Keyslot) (bytes : List Nat)
    (hwf : Header.wf h ks) (hser : h.serialize = some bytes) :
    Header.deserialize bytes =
      Except.ok ({ header_type := h.header_type
                   nonce := h.nonce
                   salt := some (List.replicate 16 0)
                   keyslots := some ks }, bytes.take 32) := by
  obtain ⟨⟨hks, hlen4, hnl, hlens⟩, hb35⟩ := hwf
  obtain ⟨⟨ver, alg, mode⟩, nonce, salt0, keyslots0⟩ := h
  cases ver
  simp only at hks hnl hlens hb35
  subst hks
  have hall : ∀ k ∈ ks, k.hash_algorithm = HashingAlgorithm.Blake3Balloon 5 ∧
      k.encrypted_key.length = 48 ∧
      k.nonce.length = get_nonce_len alg Mode.MemoryMode ∧ k.salt.length = 16 :=
    fun k hk => ⟨hb35 k hk, (hlens k hk).1, (hlens k hk).2.1, (hlens k hk).2.2⟩
  have hfl := slotBytes_length alg ks hlens
  have hloop := readKeyslotsLoop_ser (get_nonce_len alg Mode.MemoryMode) ks 4 hlen4 hall
  cases alg <;> cases mode <;>
    (simp only [Header.serialize, Header.serialize_v5, Header.serialize_version,
      Header.serialize_algorithm, Header.serialize_mode] at hser
     injection hser with hser2
     have hTot : bytes.length = 416 := by
       rw [← hser2]
       have hfl2 := hfl
       have hnl2 := hnl
       simp [get_nonce_len] at hfl2 hnl2 ⊢
       omega
     have hfull := readExact_all 416 bytes hTot
     subst hser2
     simp only [List.cons_append, List.append_assoc, List.nil_append] at hfull ⊢
     simp [Header.deserialize, readExact_cons2, hfull, orErr, bind, Except.bind,
       readExact_append, hnl, hloop, List.append_assoc])

theorem Header.serialize_salt_irrel (ht : HeaderType) (n : List Nat)
    (s1 s2 : Option (List Nat)) (k : Option (List Keyslot)) :
    Header.serialize ⟨ht, n, s1, k⟩ = Header.serialize ⟨ht, n, s2, k⟩ := rfl

theorem vec_to_arr_length (N : Nat) (v : List Nat) : (vec_to_arr N v).length = N := by
  simp [vec_to_arr]
  omega

theorem findSome?_first {α β : Type} (f : α → Option β) :
    ∀ (l : List α) (i : Nat) (s : α) (k : β), l.get? i = some s → f s = some k →
    (∀ s' ∈ l.take i, f s' = none) → l.findSome? f = some k := by
  intro l
  induction l with
  | nil => intro i s k h; simp at h
  | cons a l ih =>
    intro i s k hget hf hprev
    cases i with
    | zero =>
      simp only [List.get?] at hget
      injection hget with hget
      subst hget
      simp [List.findSome?_cons, hf]
    | succ i =>
      have ha : f a = none := hprev a (by simp)
      simp only [List.get?] at hget
      have hprev' : ∀ s' ∈ l.take i, f s' = none := by
        intro s' hs'
        exact hprev s' (by simp [List.take_succ_cons]; exact Or.inr hs')
      simp [List.findSome?_cons, ha]
      exact ih i s k hget hf hprev'

theorem findSome?_none {α β : Type} (f : α → Option β) :
    ∀ l : List α, (∀ s ∈ l, f s = none) → l.findSome? f = none := by
  intro l
  induction l with
  | nil => intro _; simp
  | cons a l ih =>
    intro h
    simp [List.findSome?_cons, h a (by simp)]
    intro s hs
    exact h s (by simp [hs])

theorem keyslotProbe_length (E : Exts) (alg : Algorithm) (rk : Protected (List Nat))
    (s : Keyslot) (k : Protected (List Nat))
    (hp : keyslotProbe E alg rk s = some k) : k.data.length = 32 := by
  unfold keyslotProbe at hp
  split at hp
  · exact absurd hp (by simp)
  · split at hp
    · obtain ⟨v, _, rfl⟩ := Option.map_eq_some'.mp hp
      simp [Protected.new, vec_to_arr_length]
    · exact absurd hp (by simp)

theorem take_append_left (a b : List Nat) (n : Nat) (h : a.length = n) :
    (a ++ b).take n = a := by
  subst h; simp

theorem drop_append_left (a b : List Nat) (n : Nat) (h : a.length = n) :
    (a ++ b).drop n = b := by
  subst h; simp

theorem create_aad_eq (h : Header) : h.create_aad = Except.ok (aadPrefix h) := by
  rcases h with ⟨⟨ver, alg, mode⟩, nonce, s0, k0⟩
  cases ver
  rfl

theorem aadPrefix_length (h : Header)
    (hnl : h.nonce.length = get_nonce_len h.header_type.algorithm h.header_type.mode) :
    (aadPrefix h).length = 32 := by
  rcases h with ⟨⟨ver, alg, mode⟩, nonce, s0, k0⟩
  cases ver
  simp only at hnl
  have h24 := get_nonce_len_le_24 alg mode
  cases alg <;> cases mode <;>
    simp [aadPrefix, Header.serialize_version, Header.serialize_algorithm,
      Header.serialize_mode, hnl, get_nonce_len]

theorem serialize_eq_aadPrefix (h : Header) (ks : List Keyslot)
    (hks : h.keyslots = some ks) :
    h.serialize = some (aadPrefix h ++
      ((ks.map (Keyslot.serializeBytes
          (get_nonce_len h.header_type.algorithm Mode.MemoryMode))).flatten
        ++ List.replicate ((4 - ks.length) * 96) 0)) := by
  rcases h with ⟨⟨ver, alg, mode⟩, nonce, s0, k0⟩
  cases ver
  simp only at hks
  subst hks
  simp [Header.serialize, Header.serialize_v5, aadPrefix, List.append_assoc]

/-- C1 (amended): for every valid 416-byte V5 envelope in canonical form —
the serialization of a well-formed header, i.e. populated slots occupy a
prefix of the four slot positions, empty slots and all padding are zero —
deserializing with `Header::deserialize` and re-serializing the resulting
header with `Header::serialize` yields exactly the original bytes. -/
theorem serialize_deserialize_roundtrip (h : Header) (ks : List Keyslot)
    (bytes : List Nat) (hwf : Header.wf h ks) (hser : h.serialize = some bytes) :
    (exceptOk? (Header.deserialize bytes)).map (fun p => Header.serialize p.1) =
      some (some bytes) := by
  rw [deserialize_serialize h ks bytes hwf hser]
  obtain ⟨⟨hks, _, _, _⟩, _⟩ := hwf
  simp only [exceptOk?, Option.map_some]
  refine congrArg some ?_
  calc Header.serialize ⟨h.header_type, h.nonce, some (List.replicate 16 0), some ks⟩
      = Header.serialize ⟨h.header_type, h.nonce, h.salt, some ks⟩ :=
        Header.serialize_salt_irrel _ _ _ _ _
    _ = some bytes := by rw [← hks]; exact hser

/-- Witness for C1 at a concrete one-slot header and its 416-byte envelope. -/
theorem serialize_deserialize_roundtrip_witness :
    (exceptOk? (Header.deserialize demoHeaderBytes)).map (fun p => Header.serialize p.1) =
      some (some demoHeaderBytes) :=
  serialize_deserialize_roundtrip demoHeader [demoKeyslot] demoHeaderBytes
    (by decide) (by decide)

/-- Counterexample to C1 as stated: `nonCanonicalEnvelope` is a valid V5
envelope under spec §4.5 (correct tags, zero padding, a well-formed
populated slot at slot position 1, empty slots all-zero), `deserialize`
accepts it, but re-serializing the parsed header does not reproduce the
original bytes: the populated slot that follows an empty slot is lost. -/
theorem roundtrip_fails_on_valid_envelope :
    nonCanonicalEnvelope.length = 416 ∧
    ((exceptOk? (Header.deserialize nonCanonicalEnvelope)).map
        (fun p => Header.serialize p.1)).isSome = true ∧
    (exceptOk? (Header.deserialize nonCanonicalEnvelope)).map
        (fun p => Header.serialize p.1) ≠ some (some nonCanonicalEnvelope) := by
  decide

/-- C2 (code_bug evaluation): on an envelope whose slot position 0 is empty
and whose slot position 1 is populated (identifier `DF B5` at offset 128),
`Header::deserialize` succeeds but returns zero keyslots: after the empty
identifier the loop continues two bytes later instead of skipping the
remaining 94 bytes of the slot, so the populated slot at its own 96-byte
position is never decoded. -/
theorem deserialize_drops_slot_after_empty :
    slotSkipEnvelope.length = 416 ∧
    slotSkipEnvelope.get? 128 = some 0xDF ∧
    slotSkipEnvelope.get? 129 = some 0xB5 ∧
    (exceptOk? (Header.deserialize slotSkipEnvelope)).map (fun p => p.1.keyslots) =
      some (some []) := by
  decide

/-- C3 (amended): for every header whose keyslots field is present with at
most four slots and whose payload and slot nonces have the lengths
prescribed by the (algorithm, mode) pair, `serialize` succeeds, the output
is exactly 416 bytes (the value `get_size` reports), and every unpopulated
trailing slot position is emitted as zero bytes. -/
theorem serialize_always_416 (h : Header) (ks : List Keyslot)
    (hl : Header.lens_ok h ks) :
    (h.serialize).isSome = true ∧
    ∀ bytes, h.serialize = some bytes →
      bytes.length = 416 ∧ h.get_size = 416 ∧
      bytes.drop (32 + 96 * ks.length) = List.replicate ((4 - ks.length) * 96) 0 := by
  obtain ⟨hks, hlen4, hnl, hlens⟩ := hl
  have hser := serialize_eq_aadPrefix h ks hks
  have hpl := aadPrefix_length h hnl
  have hfl := slotBytes_length h.header_type.algorithm ks hlens
  constructor
  · rw [hser]; rfl
  · intro bytes hbytes
    rw [hser] at hbytes
    injection hbytes with hbytes
    subst hbytes
    refine ⟨?_, ?_, ?_⟩
    · simp [List.length_append, hpl, hfl]
      omega
    · rcases h with ⟨⟨ver, alg, mode⟩, nonce, s0, k0⟩
      cases ver
      rfl
    · rw [← List.append_assoc]
      refine drop_append_left _ _ _ ?_
      simp [List.length_append, hpl, hfl]

/-- Witness for C3 at a concrete zero-slot header. -/
theorem serialize_always_416_witness :
    zeroSlotBytes.length = 416 ∧ Header.get_size zeroSlotHeader = 416 ∧
    zeroSlotBytes.drop (32 + 96 * ([] : List Keyslot).length) =
      List.replicate ((4 - ([] : List Keyslot).length) * 96) 0 :=
  (serialize_always_416 zeroSlotHeader [] (by decide)).2 zeroSlotBytes (by decide)

/-- Counterexample to C3 as stated: a header with a present keyslots field
of zero slots but an empty payload nonce serializes to 396 bytes, not the
416 bytes `get_size` reports. -/
theorem serialize_not_416_on_short_nonce :
    shortNonceHeader.keyslots = some [] ∧
    (Header.serialize shortNonceHeader).map List.length = some 396 ∧
    (Header.serialize shortNonceHeader).map List.length ≠ some 416 ∧
    Header.get_size shortNonceHeader = 416 := by
  decide

theorem readExact_eq_some_iff (n : Nat) (bs : List Nat) (p : List Nat × List Nat) :
    readExact n bs = some p ↔ n ≤ bs.length ∧ p = (bs.take n, bs.drop n) := by
  unfold readExact
  split <;> simp_all [eq_comm]

theorem orErr_eq_ok (msg : String) (o : Option α) (v : α) :
    orErr msg o = Except.ok v ↔ o = some v := by
  cases o <;> simp [orErr]

theorem deserialize_aad_take32 (input : List Nat) (hdr : Header) (aad : List Nat)
    (hds : Header.deserialize input = Except.ok (hdr, aad)) : aad = input.take 32 := by
  unfold Header.deserialize at hds
  simp only [bind, Except.bind] at hds
  repeat' split at hds
  all_goals simp_all [orErr_eq_ok, readExact_eq_some_iff, List.take_take]

/-- C4 (amended): for every header with a present keyslots field of at most
four slots whose payload nonce has the (algorithm, mode)-prescribed length,
`create_aad` returns exactly the first 32 bytes of `serialize`'s output —
version tag, algorithm tag, mode tag, payload nonce, zero padding to offset
32 — and `deserialize` returns as AAD exactly the first 32 bytes of the raw
header bytes it read. -/
theorem create_aad_first_32 :
    (∀ (h : Header) (ks : List Keyslot) (bytes : List Nat),
      h.keyslots = some ks → ks.length ≤ 4 →
      h.nonce.length = get_nonce_len h.header_type.algorithm h.header_type.mode →
      h.serialize = some bytes →
      h.create_aad = Except.ok (bytes.take 32) ∧ (bytes.take 32).length = 32) ∧
    (∀ (input : List Nat) (hdr : Header) (aad : List Nat),
      Header.deserialize input = Except.ok (hdr, aad) → aad = input.take 32) := by
  constructor
  · intro h ks bytes hks _ hnl hser
    have heq := serialize_eq_aadPrefix h ks hks
    rw [hser] at heq
    injection heq with heq
    have hpl := aadPrefix_length h hnl
    subst heq
    rw [take_append_left _ _ _ hpl]
    exact ⟨create_aad_eq h, hpl⟩
  · exact deserialize_aad_take32

/-- Witness for C4 at the concrete demo header and its envelope. -/
theorem create_aad_first_32_witness :
    (Header.create_aad demoHeader = Except.ok (demoHeaderBytes.take 32) ∧
      (demoHeaderBytes.take 32).length = 32) ∧
    demoAad = demoHeaderBytes.take 32 :=
  ⟨create_aad_first_32.1 demoHeader [demoKeyslot] demoHeaderBytes (by decide) (by decide)
      (by decide) (by decide),
    create_aad_first_32.2 demoHeaderBytes demoParsedHeader demoAad (by decide)⟩

/-- Counterexample to C4 as stated: a header with a present keyslots field
(zero slots, at most four) but an empty payload nonce has a `create_aad` of
only 8 bytes, which differs from the first 32 bytes of its serialized
output. -/
theorem create_aad_not_first_32_on_short_nonce :
    shortNonceHeaderMem.keyslots = some [] ∧
    Header.serialize shortNonceHeaderMem = some shortNonceMemBytes ∧
    Header.create_aad shortNonceHeaderMem ≠ Except.ok (shortNonceMemBytes.take 32) := by
  decide

/-- C5 (amended): a canonical zero-populated-slot envelope — the
serialization of a header with a present but empty keyslot list and a
well-sized payload nonce, whose keyslot region is therefore 384 zero
bytes — is parsed successfully by `deserialize` into a header with an empty
keyslot list, and `decrypt_master_key` on the parsed header fails with the
no-matching-key error for every external behaviour and every supplied
secret. -/
theorem zero_slots_no_matching_key (h : Header) (bytes : List Nat)
    (E : Exts) (raw_key : Protected (List Nat))
    (hk : h.keyslots = some [])
    (hn : h.nonce.length = get_nonce_len h.header_type.algorithm h.header_type.mode)
    (hser : h.serialize = some bytes) :
    (exceptOk? (Header.deserialize bytes)).map (fun p => p.1.keyslots) =
      some (some []) ∧
    (exceptOk? (Header.deserialize bytes)).map (fun p => decrypt_master_key E raw_key p.1) =
      some (Except.error
        "Unable to find a match with the key you provided (maybe you supplied the wrong key?)") := by
  rcases h with ⟨⟨ver, alg, mode⟩, nonce, s0, k0⟩
  cases ver
  simp only at hk hn
  have hwf : Header.wf ⟨⟨HeaderVersion.V5, alg, mode⟩, nonce, s0, k0⟩ [] :=
    ⟨⟨hk, by simp, hn, by simp⟩, by simp⟩
  rw [deserialize_serialize _ [] bytes hwf hser]
  constructor
  · rfl
  · simp only [exceptOk?, Option.map_some]
    refine congrArg some ?_
    simp [decrypt_master_key]

/-- Witness for C5 at the concrete zero-slot header and its envelope. -/
theorem zero_slots_no_matching_key_witness :
    (exceptOk? (Header.deserialize zeroSlotBytes)).map (fun p => p.1.keyslots) =
      some (some []) ∧
    (exceptOk? (Header.deserialize zeroSlotBytes)).map
        (fun p => decrypt_master_key extsDemo (Protected.new [1]) p.1) =
      some (Except.error
        "Unable to find a match with the key you provided (maybe you supplied the wrong key?)") :=
  zero_slots_no_matching_key zeroSlotHeader zeroSlotBytes extsDemo (Protected.new [1])
    (by decide) (by decide) (by decide)

/-- Counterexample to C5 as stated: a 416-byte header whose four slot
identifier positions (offsets 32, 128, 224, 320) all start with a byte
other than `0xDF` — zero populated slots in the claim's sense — but whose
to-be-ignored slot 0 interior holds the bytes `DF 07` is rejected by
`deserialize` instead of parsing successfully: the parser, which does not
skip the remaining 94 bytes of an empty slot, reads `DF 07` as a slot
identifier and fails. -/
theorem zero_slots_parse_can_fail :
    emptySlotsJunkEnvelope.length = 416 ∧
    emptySlotsJunkEnvelope.get? 32 = some 1 ∧
    emptySlotsJunkEnvelope.get? 128 = some 0 ∧
    emptySlotsJunkEnvelope.get? 224 = some 0 ∧
    emptySlotsJunkEnvelope.get? 320 = some 0 ∧
    Header.deserialize emptySlotsJunkEnvelope =
      Except.error "Key hashing algorithm not identified" := by
  decide

/-- C6: `decrypt_master_key` probes the stored keyslots in wire order: if
the slot at index `i` is the first whose probe (KDF, cipher initialisation,
AEAD unwrap) succeeds, the result is that slot's 32-byte master key; if
every slot's probe fails, the result is the no-matching-key error. -/
theorem decrypt_master_key_spec (E : Exts) (raw_key : Protected (List Nat))
    (h : Header) (slots : List Keyslot) (hks : h.keyslots = some slots) :
    (∀ (i : Nat) (s : Keyslot) (k : Protected (List Nat)),
      slots.get? i = some s →
      keyslotProbe E h.header_type.algorithm raw_key s = some k →
      (∀ s' ∈ slots.take i, keyslotProbe E h.header_type.algorithm raw_key s' = none) →
      decrypt_master_key E raw_key h = Except.ok k ∧ k.data.length = 32) ∧
    ((∀ s ∈ slots, keyslotProbe E h.header_type.algorithm raw_key s = none) →
      decrypt_master_key E raw_key h = Except.error
        "Unable to find a match with the key you provided (maybe you supplied the wrong key?)") := by
  rcases h with ⟨⟨ver, alg, mode⟩, nonce, s0, k0⟩
  cases ver
  simp only at hks ⊢
  subst hks
  constructor
  · intro i s k hget hp hprev
    refine ⟨?_, keyslotProbe_length E alg raw_key s k hp⟩
    simp [decrypt_master_key, findSome?_first _ slots i s k hget hp hprev]
  · intro hall
    simp [decrypt_master_key, findSome?_none _ slots hall]

/-- Witness for C6: with the demo externals, a header whose slot 0 probe
fails and whose slot 1 probe succeeds yields slot 1's unwrapped 32-byte
master key. -/
theorem decrypt_master_key_spec_witness :
    (decrypt_master_key extsDemo (Protected.new [3]) twoSlotHeader =
        Except.ok demoMasterKey ∧ demoMasterKey.data.length = 32) :=
  (decrypt_master_key_spec extsDemo (Protected.new [3]) twoSlotHeader
      [demoSlotMiss, demoSlotHit] rfl).1 1 demoSlotHit demoMasterKey
    (by decide) (by decide) (by decide)

/-- C7 (amended): the zero-length-secret rejection exists in
`Blake3BalloonHasher::hash_password`, which fails with `EmptyPassword`
before hashing; but `balloon_hash` in `dexios-core` — the KDF entry used by
`HashingAlgorithm::hash` and the keyslot manager — performs no emptiness
check: for every secret, the empty one included, it either returns a
derived key or fails with one of its two errors (parameter initialisation,
hashing failure), never with an empty-secret error. -/
theorem empty_secret_policy :
    (∀ (E : Exts) (version : ParameterVersion) (salt : List Nat),
      Blake3BalloonHasher.hash_password E version [] salt =
        Except.error Blake3BalloonError.EmptyPassword) ∧
    (∀ (E : Exts) (rk : Protected (List Nat)) (salt : List Nat),
      (∃ k, balloon_hash E rk salt HeaderVersion.V5 = Except.ok k) ∨
      balloon_hash E rk salt HeaderVersion.V5 =
        Except.error "Error initialising balloon hashing parameters" ∨
      balloon_hash E rk salt HeaderVersion.V5 =
        Except.error "Error while hashing your key") := by
  constructor
  · intro E version salt
    simp [Blake3BalloonHasher.hash_password]
  · intro E rk salt
    unfold balloon_hash
    cases hp : E.paramsNew 278528 1 1 with
    | none => simp
    | some params =>
      cases hb : E.balloonHash params rk.expose salt with
      | none => simp [hb]
      | some key => exact Or.inl ⟨Protected.new key, by simp [hb]⟩

/-- Counterexample to C7 as stated: `balloon_hash`, the KDF path the
keyslot manager actually uses, derives a 32-byte key from the empty secret
(the external balloon-hash crate accepts passwords of any length); it never
fails with an empty-secret error. -/
theorem empty_secret_not_rejected_by_balloon_hash :
    balloon_hash extsAcceptingEmpty (Protected.new []) (List.replicate 16 0)
        HeaderVersion.V5 =
      Except.ok (Protected.new (List.replicate 32 0)) ∧
    (Protected.new (List.replicate 32 0)).data.length = 32 := by
  decide

/-- C8: for every version byte other than 5, `HashingAlgorithm::hash`
rejects the request with the unsupported-parameters error — it never
derives a key under fallback parameters — and for version byte 5 it derives
the key under the V5 Balloon parameters `Params::new(278528, 1, 1)`. -/
theorem hashing_algorithm_version_gate :
    (∀ (E : Exts) (v : Nat) (rk : Protected (List Nat)) (salt : List Nat), v ≠ 5 →
      HashingAlgorithm.hash E (HashingAlgorithm.Blake3Balloon v) rk salt =
        Except.error "Balloon hashing is not supported with the parameters provided.") ∧
    (∀ (E : Exts) (params : BalloonParams) (out : List Nat)
        (rk : Protected (List Nat)) (salt : List Nat),
      E.paramsNew 278528 1 1 = some params →
      E.balloonHash params rk.expose salt = some out →
      HashingAlgorithm.hash E (HashingAlgorithm.Blake3Balloon 5) rk salt =
        Except.ok (Protected.new out)) := by
  constructor
  · intro E v rk salt hv
    simp [HashingAlgorithm.hash, hv]
  · intro E params out rk salt hp hb
    simp [HashingAlgorithm.hash, balloon_hash, hp, hb]

/-- Witness for C8 at version bytes 4 and 5 with the demo externals. -/
theorem hashing_algorithm_version_gate_witness :
    HashingAlgorithm.hash extsDemo (HashingAlgorithm.Blake3Balloon 4) (Protected.new [1])
        (List.replicate 16 0) =
      Except.error "Balloon hashing is not supported with the parameters provided." ∧
    HashingAlgorithm.hash extsDemo (HashingAlgorithm.Blake3Balloon 5) (Protected.new [1])
        (List.replicate 16 0) =
      Except.ok (Protected.new (List.replicate 16 0)) :=
  ⟨hashing_algorithm_version_gate.1 extsDemo 4 (Protected.new [1]) (List.replicate 16 0)
      (by decide),
    hashing_algorithm_version_gate.2 extsDemo ⟨278528, 1, 1⟩ (List.replicate 16 0)
      (Protected.new [1]) (List.replicate 16 0) (by decide) (by decide)⟩

/-- C9 (the code contradicts its own module documentation): the `Deref`
implementation of `Protected` returns the inner data, so the inner value is
reachable through the implicit deref coercion — it yields exactly what the
explicit `expose` accessor yields — not only through `expose`/`into_inner`. -/
theorem protected_deref_exposes_inner (T : Type) (p : Protected T) :
    p.deref = p.data ∧ p.deref = p.expose ∧ p.deref = p.into_inner :=
  ⟨rfl, rfl, rfl⟩

/-- C10 (code_bug evaluation): `generate_passphrase` samples its index from
the inclusive range `0..=words.len()`; the draw `words.len()` is inside
that range, and with such a draw the generator indexes one past the end of
the wordlist — a Rust panic, modelled as `none` — instead of returning a
passphrase of the requested words. -/
theorem generate_passphrase_out_of_bounds :
    rngMax 0 ≤ demoWordlist.length ∧
    generate_passphrase demoWordlist rngMax 1 = none := by
  decide

end Dexios
